import Mathlib

/-!
Formal model of the per-account connection lifecycle manager of a
multi-account WhatsApp desktop application.

The definitions below are shallow embeddings of the JavaScript source:
* `src/src/error-handler.js` — error classification, retry scheduling,
  the bounded recent-error log;
* `src/src/account-manager.js` — account registry, isolation paths,
  message sending;
* the `AccountManager` variant holding the QR strategy cascade and the
  `waitForQR` single-fire waiter.

Machine state (the `Map`s, the notification channel, the pending-timer
handles) is made explicit: maps become association lists preserving
insertion order, emitted notifications and scheduled retry tasks become
an explicit event trace, timers become boolean "armed" flags.
-/

namespace WhatsAppMulti

/-! ## Error classifier (`src/src/error-handler.js`, `isCriticalError` /
`isNetworkError` and the dispatch in `handleAccountError`) -/

/-- Lowercasing used by `String.prototype.toLowerCase()` on the ASCII
message texts involved; modelled character by character. -/
def lowerStr (s : String) : List Char :=
  s.data.map Char.toLower

/-- JavaScript `haystack.toLowerCase().includes(needle.toLowerCase())`:
contiguous-substring containment, case-insensitive. -/
def includesCI (haystack needle : String) : Bool :=
  decide (lowerStr needle <:+: lowerStr haystack)

/-- the `criticalMessages` array of `isCriticalError`. -/
def criticalMessages : List String :=
  ["Authentication failure", "Account banned", "Invalid session",
   "Protocol error", "Unauthorized", "Account not found"]

/-- `isCriticalError(error)`: some critical keyword occurs
case-insensitively in the error message. -/
def isCriticalError (errorMessage : String) : Bool :=
  criticalMessages.any (fun msg => includesCI errorMessage msg)

/-- the `networkMessages` array of `isNetworkError`. -/
def networkMessages : List String :=
  ["network error", "connection refused", "timeout", "socket hang up",
   "getaddrinfo", "connect ETIMEDOUT", "connect ECONNREFUSED"]

/-- `isNetworkError(error)`: some network keyword occurs
case-insensitively in the error message. -/
def isNetworkError (errorMessage : String) : Bool :=
  networkMessages.any (fun msg => includesCI errorMessage msg)

/-- the three error classes driving retry policy. -/
inductive ErrorClass where
  | critical
  | networkTransient
  | generic
deriving DecidableEq, Repr

/-- classification dispatch of `handleAccountError`: critical is tested
first, then network, and everything else is generic. -/
def classify (errorMessage : String) : ErrorClass :=
  if isCriticalError errorMessage then ErrorClass.critical
  else if isNetworkError errorMessage then ErrorClass.networkTransient
  else ErrorClass.generic

/-- critical keyword set as worded by the specification (for comparison
with the source's `criticalMessages`). -/
def specCriticalMessages : List String :=
  ["authentication failure", "banned", "invalid session",
   "protocol error", "unauthorized", "not found"]

/-- network keyword set as worded by the specification (for comparison
with the source's `networkMessages`). -/
def specNetworkMessages : List String :=
  ["network error", "connection refused", "timeout", "socket hang up",
   "DNS resolution failure", "connection timed out"]

/-! ## Recent-error log (`addToRecentErrors`) -/

/-- `maxRecentErrors` from the `ErrorHandler` constructor. -/
def maxRecentErrors : Nat := 50

/-- one entry of the recent-error log; `id`/`timestamp` are collapsed to
one epoch number (`Date.now()`). -/
structure ErrEntry where
  accountId : String
  error : String
  context : String
  timestamp : Nat
deriving DecidableEq, Repr

/-- `addToRecentErrors(errorInfo)`: unshift the new entry, then truncate
to the 50 most recent when the capacity is exceeded. -/
def addToRecentErrors (e : ErrEntry) (recent : List ErrEntry) : List ErrEntry :=
  let grown := e :: recent
  if grown.length > maxRecentErrors then grown.take maxRecentErrors else grown

/-! ## Retry scheduling state machine (`handleAccountError` and the
handlers it dispatches to) -/

/-- `maxRetries` from the `ErrorHandler` constructor. -/
def maxRetries : Nat := 3

/-- `retryDelay` (ms) from the `ErrorHandler` constructor: base delay of
the exponential backoff. -/
def retryDelay : Nat := 10000

/-- `networkRetryDelay` (ms) from `handleNetworkError`. -/
def networkRetryDelay : Nat := 5000

/-- severity channel of `notifyUser`. -/
inductive NotifyType where
  | info
  | warning
  | error
  | critical
deriving DecidableEq, Repr

/-- observable outputs of the error handler: user notifications, the
`account:update` disable message, and `setTimeout`-scheduled retries. -/
inductive EHEvent where
  | notify (ntype : NotifyType) (accountId : String)
  | accountDisabled (accountId : String) (error : String)
  | scheduleRetry (accountId : String) (delayMs : Nat)
deriving DecidableEq, Repr

/-- state of one `ErrorHandler` instance: the `retryAttempts` map as an
association list, the `recentErrors` array, and the emitted event trace. -/
structure EHState where
  retryAttempts : List (String × Nat)
  recentErrors : List ErrEntry
  events : List EHEvent
deriving DecidableEq, Repr

/-- freshly constructed `ErrorHandler`. -/
def EHState.init : EHState :=
  { retryAttempts := [], recentErrors := [], events := [] }

/-- `this.retryAttempts.get(accountId) || 0`. -/
def getRetries (attempts : List (String × Nat)) (accountId : String) : Nat :=
  match attempts.find? (fun p => p.1 == accountId) with
  | some p => p.2
  | none => 0

/-- `this.retryAttempts.set(accountId, n)` (update in place, or append
for a fresh key, matching `Map` insertion-order semantics). -/
def setRetries (attempts : List (String × Nat)) (accountId : String) (n : Nat) :
    List (String × Nat) :=
  if (attempts.find? (fun p => p.1 == accountId)).isSome then
    attempts.map (fun p => if p.1 == accountId then (p.1, n) else p)
  else
    attempts ++ [(accountId, n)]

/-- `this.retryAttempts.delete(accountId)`. -/
def delRetries (attempts : List (String × Nat)) (accountId : String) :
    List (String × Nat) :=
  attempts.filter (fun p => !(p.1 == accountId))

/-- `handleCriticalError`: critical notification, retry counter removed,
`account:update {status: "disabled"}` sent; no retry scheduled. -/
def handleCriticalError (accountId errMsg : String) (s : EHState) : EHState :=
  { s with
    retryAttempts := delRetries s.retryAttempts accountId,
    events := s.events ++
      [EHEvent.notify NotifyType.critical accountId,
       EHEvent.accountDisabled accountId errMsg] }

/-- `handleNetworkError`: below the cap, bump the counter and schedule a
fixed 5s retry; at the cap, terminal error notification and counter
removal. -/
def handleNetworkError (accountId : String) (s : EHState) : EHState :=
  let retries := getRetries s.retryAttempts accountId
  if retries < maxRetries then
    { s with
      retryAttempts := setRetries s.retryAttempts accountId (retries + 1),
      events := s.events ++
        [EHEvent.notify NotifyType.warning accountId,
         EHEvent.scheduleRetry accountId networkRetryDelay] }
  else
    { s with
      retryAttempts := delRetries s.retryAttempts accountId,
      events := s.events ++ [EHEvent.notify NotifyType.error accountId] }

/-- `handleRetryableError`: below the cap, bump the counter and schedule
a retry after `retryDelay * 2 ^ retries` ms (10s, 20s, 40s); at the cap,
terminal error notification and counter removal. -/
def handleRetryableError (accountId : String) (s : EHState) : EHState :=
  let retries := getRetries s.retryAttempts accountId
  if retries < maxRetries then
    { s with
      retryAttempts := setRetries s.retryAttempts accountId (retries + 1),
      events := s.events ++
        [EHEvent.notify NotifyType.warning accountId,
         EHEvent.scheduleRetry accountId (retryDelay * 2 ^ retries)] }
  else
    { s with
      retryAttempts := delRetries s.retryAttempts accountId,
      events := s.events ++ [EHEvent.notify NotifyType.error accountId] }

/-- `handleAccountError(accountId, error, context)`: record the error in
the recent-error log, then dispatch on its class.  (File logging is an
out-of-model side effect.) -/
def handleAccountError (accountId errMsg context : String) (ts : Nat)
    (s : EHState) : EHState :=
  let logged :=
    { s with recentErrors :=
        addToRecentErrors ⟨accountId, errMsg, context, ts⟩ s.recentErrors }
  if isCriticalError errMsg then handleCriticalError accountId errMsg logged
  else if isNetworkError errMsg then handleNetworkError accountId logged
  else handleRetryableError accountId logged

/-- `clearRetries(accountId)`: drop the account's retry counter when it
recovers. -/
def clearRetries (accountId : String) (s : EHState) : EHState :=
  { s with retryAttempts := delRetries s.retryAttempts accountId }

/-! ## Handshake waiter (`waitForQR`, the variant with health checks and
overall timeout; the simpler variant registers a subset of the same
triggers through the same `resolveOnce` / `rejectOnce` guards) -/

/-- terminal per-attempt outcome handed to `resolve` or `reject`. -/
inductive WaitOutcome where
  | qrGenerated (accountId qr : String)
  | alreadyAuthenticated (accountId : String)
  | failure (reason : String)
deriving DecidableEq, Repr

/-- the asynchronous completion triggers racing inside `waitForQR`: the
four one-shot client events, the two health-check failure modes, the
expiry of the overall timer, and the post-grace rejection after a failed
`client.initialize()`. -/
inductive WaitTrigger where
  | qr (code : String)
  | ready
  | authFailure (msg : String)
  | disconnected (reason : String)
  | healthPageClosed
  | healthUnresponsive
  | overallTimeout
  | initFailedAfterGrace (msg : String)
deriving DecidableEq, Repr

/-- state of one pending `waitForQR` promise: the `isResolved` flag, the
list of resolution-callback invocations so far, and whether the overall
timer (`qrTimeout`) and the health-check interval are still armed. -/
structure WaitState where
  isResolved : Bool
  resolutions : List WaitOutcome
  qrTimerArmed : Bool
  healthTimerArmed : Bool
deriving DecidableEq, Repr

/-- state right after `waitForQR` registers its listeners and starts the
health-check interval and the overall timer. -/
def WaitState.start : WaitState :=
  { isResolved := false, resolutions := [],
    qrTimerArmed := true, healthTimerArmed := true }

/-- the outcome each trigger passes to `resolveOnce` / `rejectOnce`. -/
def triggerOutcome (accountId : String) : WaitTrigger → WaitOutcome
  | WaitTrigger.qr code => WaitOutcome.qrGenerated accountId code
  | WaitTrigger.ready => WaitOutcome.alreadyAuthenticated accountId
  | WaitTrigger.authFailure msg =>
      WaitOutcome.failure ("Authentication failed: " ++ msg)
  | WaitTrigger.disconnected reason =>
      WaitOutcome.failure ("Disconnected during initialization: " ++ reason)
  | WaitTrigger.healthPageClosed =>
      WaitOutcome.failure "Browser page was closed unexpectedly"
  | WaitTrigger.healthUnresponsive =>
      WaitOutcome.failure "Client appears to be unresponsive (health check failed)"
  | WaitTrigger.overallTimeout =>
      WaitOutcome.failure "Client initialization timed out after 70s"
  | WaitTrigger.initFailedAfterGrace msg =>
      WaitOutcome.failure ("Initialization failed: " ++ msg)

/-- `resolveOnce` / `rejectOnce`: if already resolved do nothing,
otherwise set the flag, run `cleanup()` (clearing both timers) and invoke
the resolution callback with the outcome. -/
def settleOnce (o : WaitOutcome) (s : WaitState) : WaitState :=
  if s.isResolved then s
  else
    { isResolved := true, resolutions := s.resolutions ++ [o],
      qrTimerArmed := false, healthTimerArmed := false }

/-- one trigger firing against the pending promise. -/
def fireTrigger (accountId : String) (t : WaitTrigger) (s : WaitState) :
    WaitState :=
  settleOnce (triggerOutcome accountId t) s

/-- `waitForQR` observed on a whole sequence of racing triggers, in the
order the event loop delivers them. -/
def waitForQR (accountId : String) (ts : List WaitTrigger) : WaitState :=
  ts.foldl (fun s t => fireTrigger accountId t s) WaitState.start

/-! ## QR strategy cascade (`getQRCode`, the three-strategy variant) -/

/-- successful handshake outcome of one strategy. -/
inductive QRSuccess where
  | qrGenerated (qr : String)
  | alreadyAuthenticated
deriving DecidableEq, Repr

/-- errors `getQRCode` can throw: the two guard failures and the
aggregate error carrying one reason per attempted strategy. -/
inductive QRError where
  | accountNotFound (accountId : String)
  | alreadyAuthenticated (accountId : String)
  | allStrategiesFailed (simpleReason directReason minimalReason : String)
deriving DecidableEq, Repr

/-- result of running the cascade, together with how many strategy
attempts were made. -/
structure CascadeOutcome where
  result : Except QRError QRSuccess
  attempts : Nat
deriving Repr

/-- `getQRCode(accountId)`: guard on registry membership and on
`isAuthenticated`, then try the simplified approach, the direct
Puppeteer approach and the minimal-settings approach in that order,
returning at the first success; when all three fail, throw one aggregate
error naming all three failure reasons.  Each strategy's
environment-dependent outcome (client construction + `waitForQR`) enters
as a parameter.  The cascade body itself never assigns
`account.isAuthenticated`, but strategies 1 and 3 call
`setupClientEventHandlers`, whose persistent `authenticated` handler
sets the flag to true when that event fires — even during an attempt
that subsequently fails (the `authenticated` event is not among
`waitForQR`'s completion listeners).  `authEvent1` / `authEvent3` say
whether such an event reached the handlers during strategy 1's /
strategy 3's attempt (strategy 2, `directPuppeteerQR`, registers no
handlers).  The second component of the result is the account's
`isAuthenticated` flag after the call. -/
def getQRCode (accountId : String) (registryHas isAuthenticated : Bool)
    (simpleOutcome directOutcome minimalOutcome : Except String QRSuccess)
    (authEvent1 authEvent3 : Bool) : CascadeOutcome × Bool :=
  if !registryHas then
    (⟨Except.error (QRError.accountNotFound accountId), 0⟩, isAuthenticated)
  else if isAuthenticated then
    (⟨Except.error (QRError.alreadyAuthenticated accountId), 0⟩,
     isAuthenticated)
  else
    let auth1 := isAuthenticated || authEvent1
    match simpleOutcome with
    | Except.ok v => (⟨Except.ok v, 1⟩, auth1)
    | Except.error simpleErr =>
      match directOutcome with
      | Except.ok v => (⟨Except.ok v, 2⟩, auth1)
      | Except.error directErr =>
        let auth3 := auth1 || authEvent3
        match minimalOutcome with
        | Except.ok v => (⟨Except.ok v, 3⟩, auth3)
        | Except.error minimalErr =>
          (⟨Except.error
            (QRError.allStrategiesFailed simpleErr directErr minimalErr), 3⟩,
           auth3)

/-! ## Account manager (`src/src/account-manager.js`) -/

/-- `maxAccounts` from the `AccountManager` constructor. -/
def maxAccounts : Nat := 10

/-- splits a character list at every `/` separator; `cur` holds the
characters of the segment read so far, in reverse. -/
def splitSegsAux (cur : List Char) : List Char → List String
  | [] => [String.mk cur.reverse]
  | c :: cs =>
    if c = '/' then String.mk cur.reverse :: splitSegsAux [] cs
    else splitSegsAux (c :: cur) cs

/-- the `/`-separated segments of a path string. -/
def splitSlash (s : String) : List String :=
  splitSegsAux [] s.data

/-- one step of Node's path normalization over the segment stack: empty
and `.` segments are dropped, `..` pops the stack when possible (and is
kept when the relative path is already above its root), anything else is
pushed. -/
def normStep (acc : List String) (seg : String) : List String :=
  if seg = "" ∨ seg = "." then acc
  else if seg = ".." then
    match acc.getLast? with
    | some last => if last = ".." then acc ++ [".."] else acc.dropLast
    | none => acc ++ [".."]
  else acc ++ [seg]

/-- whether a path string ends in the separator (Node's
`trailingSeparator` flag of `normalize`). -/
def hasTrailingSep (l : List Char) : Bool :=
  decide (l.getLast? = some '/')

/-- Node `path.join(base, name)` (posix flavor) for the relative bases
used here: the nonempty parts are joined with `/` and the result is
normalized — empty and `.` segments dropped, `..` resolved against the
segment stack, a trailing separator preserved, and an empty result
becoming `.`.  The absolute branch of Node's `normalize` is never taken
because both bases are relative; win32 `path.join` uses `\` in the
output but performs the same `.`/`..` normalization, so which inputs
collide is unchanged. -/
def pathJoin (base name : String) : String :=
  let joined := if name = "" then base else base ++ "/" ++ name
  let segs := (splitSlash joined).foldl normStep []
  let core := String.intercalate "/" segs
  if core = "" then (if hasTrailingSep joined.data then "./" else ".")
  else (if hasTrailingSep joined.data then core ++ "/" else core)

/-- the two per-account namespaces: `accountDataPath` (credentials,
`LocalAuth` storage) and `chromeProfilePath` (browser profile), exactly
as computed in `createAccount` and `createSimpleIsolatedClient`. -/
def isolationPaths (accountId : String) : String × String :=
  (pathJoin "./data/accounts" accountId,
   pathJoin "./data/chrome_profiles" ("chrome_" ++ accountId))

/-- one outgoing message record, as cached by `sendMessage`. -/
structure MessageData where
  id : String
  toAddr : String
  body : String
  timestamp : Nat
  accountId : String
  status : String
deriving DecidableEq, Repr

/-- per-account UI state; `messageCache` is the `Map` from chat id to
that chat's message list, as an insertion-ordered association list. -/
structure UIState where
  messageCache : List (String × List MessageData)
  unreadCount : Nat
  onlineStatus : String
deriving DecidableEq, Repr

/-- one entry of the account registry. -/
structure Account where
  accountId : String
  displayName : String
  dataPath : String
  chromeProfilePath : String
  isActive : Bool
  isAuthenticated : Bool
  uiState : UIState
deriving DecidableEq, Repr

/-- the `accounts` map, insertion-ordered. -/
abbrev Registry := List (String × Account)

/-- `this.accounts.get(accountId)`. -/
def lookupAccount (r : Registry) (accountId : String) : Option Account :=
  (r.find? (fun p => p.1 == accountId)).map (fun p => p.2)

/-- the fresh `accountInfo` record built by `createAccount`. -/
def newAccountInfo (accountId displayName : String) : Account :=
  { accountId := accountId, displayName := displayName,
    dataPath := (isolationPaths accountId).1,
    chromeProfilePath := (isolationPaths accountId).2,
    isActive := false, isAuthenticated := false,
    uiState := { messageCache := [], unreadCount := 0,
                 onlineStatus := "offline" } }

/-- result record returned by `createAccount`. -/
structure CreateResult where
  accountId : String
  displayName : String
  status : String
deriving DecidableEq, Repr

/-- `createAccount({accountId, displayName})`: reject when the registry
is at capacity, then when the id already exists (each `throw` happens
before any registry mutation), otherwise register the isolated account
and report `status: "created"`. -/
def createAccount (r : Registry) (accountId displayName : String) :
    Registry × Except String CreateResult :=
  if r.length ≥ maxAccounts then
    (r, Except.error "Maximum 10 accounts allowed")
  else if (lookupAccount r accountId).isSome then
    (r, Except.error ("Account " ++ accountId ++ " already exists"))
  else
    (r ++ [(accountId, newAccountInfo accountId displayName)],
     Except.ok ⟨accountId, displayName, "created"⟩)

/-- `phoneNumber.replace(/\D/g, "")`: keep only the decimal digits. -/
def cleanPhone (phoneNumber : String) : String :=
  String.mk (phoneNumber.data.filter Char.isDigit)

/-- the normalized wire address `` `${cleanPhone}@c.us` ``. -/
def formatPhone (phoneNumber : String) : String :=
  cleanPhone phoneNumber ++ "@c.us"

/-- message-cache lookup: the list stored for `chatId`, empty when the
`Map` has no entry yet. -/
def cacheGet (cache : List (String × List MessageData)) (chatId : String) :
    List MessageData :=
  match cache.find? (fun p => p.1 == chatId) with
  | some p => p.2
  | none => []

/-- the cache mutation of `sendMessage`: create the chat's entry when
missing, then `push` the record at its end. -/
def cachePush (cache : List (String × List MessageData)) (chatId : String)
    (msg : MessageData) : List (String × List MessageData) :=
  if (cache.find? (fun p => p.1 == chatId)).isSome then
    cache.map (fun p => if p.1 == chatId then (p.1, p.2 ++ [msg]) else p)
  else
    cache ++ [(chatId, [msg])]

/-- the account after `sendMessage` caches one outgoing record. -/
def pushMessage (a : Account) (chatId : String) (msg : MessageData) : Account :=
  { a with uiState := { a.uiState with
      messageCache := cachePush a.uiState.messageCache chatId msg } }

/-- registry update at one key. -/
def updateAccount (r : Registry) (accountId : String) (a : Account) : Registry :=
  r.map (fun p => if p.1 == accountId then (p.1, a) else p)

/-- `sendMessage(accountId, phoneNumber, messageText)`: not-found and
not-ready guards throw before any mutation; otherwise the destination is
normalized, the message goes to the remote client (its fallible
round-trip enters as `wire`, carrying the remote message id on success),
and on success the accountId-tagged record is appended to the sending
account's isolated message cache under the normalized address. -/
def sendMessage (r : Registry) (accountId phoneNumber messageText : String)
    (wire : Except String String) (now : Nat) :
    Registry × Except String MessageData :=
  match lookupAccount r accountId with
  | none => (r, Except.error ("Account " ++ accountId ++ " not found"))
  | some account =>
    if !(account.isActive && account.isAuthenticated) then
      (r, Except.error ("Account " ++ accountId ++ " is not ready"))
    else
      match wire with
      | Except.error e => (r, Except.error e)
      | Except.ok wireId =>
        let formattedPhone := formatPhone phoneNumber
        let messageData : MessageData :=
          { id := wireId, toAddr := formattedPhone, body := messageText,
            timestamp := now, accountId := accountId, status := "sent" }
        (updateAccount r accountId (pushMessage account formattedPhone messageData),
         Except.ok messageData)

/-! ## Helper lemmas -/

/-- appending on the left cancels in `String` equations. -/
theorem string_append_left_cancel {s a b : String} (h : s ++ a = s ++ b) :
    a = b := by
  apply String.ext
  have hd : s.data ++ a.data = s.data ++ b.data := by
    simpa [String.data_append] using congrArg String.data h
  exact List.append_cancel_left hd

/-- truncating the right summand before an append does not change a
truncated append. -/
theorem take_append_take {α : Type} (a b : List α) (n : Nat) :
    (a ++ b.take n).take n = (a ++ b).take n := by
  rw [List.take_append_eq_append_take, List.take_append_eq_append_take,
    List.take_take, Nat.min_eq_left (Nat.sub_le n a.length)]

/-- one log insertion is a truncated cons. -/
theorem addToRecentErrors_eq (e : ErrEntry) (l : List ErrEntry) :
    addToRecentErrors e l = (e :: l).take maxRecentErrors := by
  unfold addToRecentErrors
  by_cases hlen : (e :: l).length > maxRecentErrors
  · simp [hlen]
  · simp only [hlen, if_neg, ite_false]
    exact (List.take_of_length_le (Nat.le_of_not_lt hlen)).symm

/-- a deleted retry counter reads back as zero. -/
theorem getRetries_delRetries (l : List (String × Nat)) (accountId : String) :
    getRetries (delRetries l accountId) accountId = 0 := by
  induction l with
  | nil => rfl
  | cons p l ih =>
    by_cases hp : (p.1 == accountId) = true
    · simpa [delRetries, hp] using ih
    · simp only [Bool.not_eq_true] at hp
      simpa [delRetries, getRetries, List.find?, hp] using ih

/-- a freshly set retry counter reads back as the value written. -/
theorem getRetries_setRetries (l : List (String × Nat)) (accountId : String)
    (n : Nat) : getRetries (setRetries l accountId n) accountId = n := by
  unfold setRetries
  by_cases hs : (l.find? (fun p => p.1 == accountId)).isSome = true
  · simp only [hs, if_pos]
    induction l with
    | nil => simp at hs
    | cons p l ih =>
      by_cases hp : (p.1 == accountId) = true
      · simp [getRetries, List.find?, hp]
      · simp only [Bool.not_eq_true] at hp
        simp only [List.find?, hp, Option.isSome] at hs
        simpa [getRetries, List.find?, hp] using ih hs
  · simp only [hs, if_neg, ite_false]
    induction l with
    | nil => simp [getRetries]
    | cons p l ih =>
      by_cases hp : (p.1 == accountId) = true
      · simp [List.find?, hp] at hs
      · simp only [Bool.not_eq_true] at hp
        simp only [List.find?, hp] at hs
        simpa [getRetries, List.find?, hp] using ih hs

/-- once the waiter promise is resolved, any further trigger sequence
leaves its state untouched. -/
theorem foldl_fireTrigger_resolved (accountId : String) (ts : List WaitTrigger)
    (s : WaitState) (h : s.isResolved = true) :
    ts.foldl (fun s t => fireTrigger accountId t s) s = s := by
  induction ts with
  | nil => rfl
  | cons t ts ih => simpa [fireTrigger, settleOnce, h] using ih

/-- pushing into the message cache appends exactly one record at the
pushed chat id. -/
theorem cacheGet_cachePush (cache : List (String × List MessageData))
    (chatId : String) (msg : MessageData) :
    cacheGet (cachePush cache chatId msg) chatId
      = cacheGet cache chatId ++ [msg] := by
  induction cache with
  | nil => simp [cachePush, cacheGet, List.find?]
  | cons p cache ih =>
    obtain ⟨k, v⟩ := p
    by_cases hp : (k == chatId) = true
    · have hpe : k = chatId := by simpa using hp
      subst hpe
      simp [cachePush, cacheGet, List.find?]
    · simp only [Bool.not_eq_true] at hp
      have hne : ¬ k = chatId := by simpa using hp
      by_cases hs : (cache.find? (fun q => q.1 == chatId)).isSome = true
      · have hpush : cachePush cache chatId msg
            = cache.map (fun q => if q.1 == chatId then (q.1, q.2 ++ [msg]) else q) := by
          simp [cachePush, hs]
        have hih := ih
        rw [hpush] at hih
        have hcons : cachePush ((k, v) :: cache) chatId msg
            = (k, v) :: cache.map (fun q => if q.1 == chatId then (q.1, q.2 ++ [msg]) else q) := by
          simp [cachePush, List.find?, hp, hne, hs]
        rw [hcons]
        simpa [cacheGet, List.find?, hp, hne] using hih
      · have hpush : cachePush cache chatId msg = cache ++ [(chatId, [msg])] := by
          simp [cachePush, hs]
        have hih := ih
        rw [hpush] at hih
        have hcons : cachePush ((k, v) :: cache) chatId msg
            = (k, v) :: (cache ++ [(chatId, [msg])]) := by
          simp [cachePush, List.find?, hp, hne, hs]
        rw [hcons]
        simpa [cacheGet, List.find?, hp, hne] using hih

/-! ## Claim theorems -/

/-- C1: for every session and every nonempty sequence of racing
completion triggers delivered to `waitForQR`, the resolution callback is
invoked exactly once, the first trigger determines the outcome, all
later triggers are no-ops, and both the overall timeout and the
health-check timer are cancelled at the first completion. -/
theorem waitForQR_single_fire (accountId : String) (ts : List WaitTrigger)
    (h : ts ≠ []) :
    (waitForQR accountId ts).resolutions
        = [triggerOutcome accountId (ts.head h)] ∧
    (waitForQR accountId ts).isResolved = true ∧
    (waitForQR accountId ts).qrTimerArmed = false ∧
    (waitForQR accountId ts).healthTimerArmed = false := by
  match ts with
  | t :: rest =>
    have hfirst : fireTrigger accountId t WaitState.start
        = { isResolved := true,
            resolutions := [triggerOutcome accountId t],
            qrTimerArmed := false, healthTimerArmed := false } := by
      simp [fireTrigger, settleOnce, WaitState.start]
    have hrun : waitForQR accountId (t :: rest)
        = { isResolved := true,
            resolutions := [triggerOutcome accountId t],
            qrTimerArmed := false, healthTimerArmed := false } := by
      unfold waitForQR
      rw [List.foldl_cons, hfirst]
      exact foldl_fireTrigger_resolved accountId rest _ rfl
    simp [hrun]

/-- C1 witness: a timeout racing ahead of a late QR event resolves the
promise once, with the timeout outcome, and disarms both timers. -/
theorem waitForQR_single_fire_witness :
    ([WaitTrigger.overallTimeout, WaitTrigger.qr "QR1"]
        ≠ ([] : List WaitTrigger)) ∧
    (waitForQR "a1" [WaitTrigger.overallTimeout, WaitTrigger.qr "QR1"]).resolutions
        = [WaitOutcome.failure "Client initialization timed out after 70s"] ∧
    (waitForQR "a1" [WaitTrigger.overallTimeout, WaitTrigger.qr "QR1"]).qrTimerArmed
        = false :=
  ⟨by decide,
   (waitForQR_single_fire "a1" _ (by decide)).1,
   (waitForQR_single_fire "a1" _ (by decide)).2.2.1⟩

/-- C2 counterexample: with every strategy failing, the cascade makes
its 3 attempts and throws the aggregate error, yet the account ends
marked authenticated when an `authenticated` event reached the
persistent handlers (registered by `setupClientEventHandlers` in
strategy 1) during the failed first attempt — refuting the claim's
"leaving the account unauthenticated" conjunct. -/
theorem getQRCode_auth_after_failure :
    (getQRCode "a1" true false (Except.error "E1") (Except.error "E2")
        (Except.error "E3") true false).1.result
      = Except.error (QRError.allStrategiesFailed "E1" "E2" "E3") ∧
    (getQRCode "a1" true false (Except.error "E1") (Except.error "E2")
        (Except.error "E3") true false).1.attempts = 3 ∧
    (getQRCode "a1" true false (Except.error "E1") (Except.error "E2")
        (Except.error "E3") true false).2 = true :=
  ⟨rfl, rfl, rfl⟩

/-- C2 amended: with the account registered and unauthenticated,
`getQRCode` tries the three strategies in declared order, stops at the
first success, and when all fail it makes exactly 3 attempts and throws
one aggregate error carrying all 3 failure reasons.  The cascade body
never writes the authentication flag: after the call the flag is the
disjunction of the `authenticated`-event indicators of the attempted
handler-registering strategies, so the account remains unauthenticated
exactly when no such event fired during the failed attempts. -/
theorem getQRCode_cascade (accountId : String)
    (s1 s2 s3 : Except String QRSuccess) (a1 a3 : Bool) :
    (∀ v, s1 = Except.ok v →
      getQRCode accountId true false s1 s2 s3 a1 a3
        = (⟨Except.ok v, 1⟩, a1)) ∧
    (∀ e1 v, s1 = Except.error e1 → s2 = Except.ok v →
      getQRCode accountId true false s1 s2 s3 a1 a3
        = (⟨Except.ok v, 2⟩, a1)) ∧
    (∀ e1 e2 v, s1 = Except.error e1 → s2 = Except.error e2 →
      s3 = Except.ok v →
      getQRCode accountId true false s1 s2 s3 a1 a3
        = (⟨Except.ok v, 3⟩, a1 || a3)) ∧
    (∀ e1 e2 e3, s1 = Except.error e1 → s2 = Except.error e2 →
      s3 = Except.error e3 →
      getQRCode accountId true false s1 s2 s3 a1 a3
        = (⟨Except.error (QRError.allStrategiesFailed e1 e2 e3), 3⟩,
           a1 || a3)) ∧
    (a1 = false → a3 = false → ∀ e1 e2 e3, s1 = Except.error e1 →
      s2 = Except.error e2 → s3 = Except.error e3 →
      (getQRCode accountId true false s1 s2 s3 a1 a3).2 = false) := by
  refine ⟨?_, ?_, ?_, ?_, ?_⟩
  · intro v h1
    subst h1; rfl
  · intro e1 v h1 h2
    subst h1; subst h2; rfl
  · intro e1 e2 v h1 h2 h3
    subst h1; subst h2; subst h3; rfl
  · intro e1 e2 e3 h1 h2 h3
    subst h1; subst h2; subst h3; rfl
  · intro ha1 ha3 e1 e2 e3 h1 h2 h3
    subst ha1; subst ha3; subst h1; subst h2; subst h3; rfl

/-- C2 amended witness: three failing strategies with no authenticated
event produce the aggregate error with the three reasons after exactly
three attempts and leave the flag false; a succeeding first strategy
returns after one attempt. -/
theorem getQRCode_cascade_witness :
    getQRCode "a1" true false
        (Except.error "E1") (Except.error "E2") (Except.error "E3")
        false false
      = (⟨Except.error (QRError.allStrategiesFailed "E1" "E2" "E3"), 3⟩,
         false) ∧
    getQRCode "a1" true false
        (Except.ok (QRSuccess.qrGenerated "QR")) (Except.error "E2")
        (Except.error "E3") false false
      = (⟨Except.ok (QRSuccess.qrGenerated "QR"), 1⟩, false) :=
  ⟨(getQRCode_cascade "a1" _ _ _ false false).2.2.2.1 "E1" "E2" "E3"
     rfl rfl rfl,
   (getQRCode_cascade "a1" _ _ _ false false).1
     (QRSuccess.qrGenerated "QR") rfl⟩

/-- C7: starting from any log within capacity, any sequence of
insertions leaves the recent-error log equal to the 50 most recent
entries in most-recent-first order, and in particular never longer than
50 entries. -/
theorem recentErrors_bounded (es : List ErrEntry) (l : List ErrEntry)
    (h : l.length ≤ maxRecentErrors) :
    (es.foldl (fun acc e => addToRecentErrors e acc) l)
        = (es.reverse ++ l).take maxRecentErrors ∧
    (es.foldl (fun acc e => addToRecentErrors e acc) l).length
        ≤ maxRecentErrors := by
  have heq : ∀ (es : List ErrEntry) (l : List ErrEntry),
      l.length ≤ maxRecentErrors →
      (es.foldl (fun acc e => addToRecentErrors e acc) l)
        = (es.reverse ++ l).take maxRecentErrors := by
    intro es
    induction es with
    | nil =>
      intro l hl
      simpa using (List.take_of_length_le hl).symm
    | cons e es ih =>
      intro l hl
      rw [List.foldl_cons, addToRecentErrors_eq,
        ih ((e :: l).take maxRecentErrors) (List.length_take_le _ _),
        take_append_take]
      simp [List.append_assoc]
  refine ⟨heq es l h, ?_⟩
  rw [heq es l h]
  exact List.length_take_le _ _

set_option maxRecDepth 100000 in
/-- C7 witness: inserting 60 sequential errors into an empty log leaves
exactly the 50 most recent, newest at the front. -/
theorem recentErrors_bounded_witness :
    ([] : List ErrEntry).length ≤ maxRecentErrors ∧
    (((List.range 60).map (fun i => ErrEntry.mk "a1" "err" "ctx" i)).foldl
        (fun acc e => addToRecentErrors e acc) [])
      = ((((List.range 60).map (fun i => ErrEntry.mk "a1" "err" "ctx" i)).reverse
          ++ [])).take maxRecentErrors ∧
    (((List.range 60).map (fun i => ErrEntry.mk "a1" "err" "ctx" i)).foldl
        (fun acc e => addToRecentErrors e acc) [])
      = (((List.range 60).reverse.take 50).map
          (fun i => ErrEntry.mk "a1" "err" "ctx" i)) :=
  ⟨by decide,
   (recentErrors_bounded _ _ (by decide)).1,
   by rfl⟩

/-- C8 counterexample: the message "User banned" contains the
spec-claimed critical keyword "banned" case-insensitively, yet the
classifier returns Generic (the source matches "Account banned", not
"banned"); likewise "DNS resolution failure" is claimed NetworkTransient
but classifies as Generic. -/
theorem classify_keyword_mismatch :
    includesCI "User banned" "banned" = true ∧
    classify "User banned" = ErrorClass.generic ∧
    includesCI "DNS resolution failure" "DNS resolution failure" = true ∧
    classify "DNS resolution failure" = ErrorClass.generic := by
  refine ⟨by decide, by decide, by decide, by decide⟩

/-- C8 amended: the classifier maps a message to Critical exactly when
it contains (case-insensitively) one of the source's critical keywords
(authentication failure, account banned, invalid session, protocol
error, unauthorized, account not found); otherwise to NetworkTransient
exactly when it contains one of the source's network keywords (network
error, connection refused, timeout, socket hang up, getaddrinfo,
connect etimedout, connect econnrefused); otherwise to Generic.
Critical matching takes precedence over NetworkTransient. -/
theorem classify_keyword_cases (m : String) :
    (classify m = ErrorClass.critical ↔
      ∃ k ∈ criticalMessages, lowerStr k <:+: lowerStr m) ∧
    (classify m = ErrorClass.networkTransient ↔
      (¬ ∃ k ∈ criticalMessages, lowerStr k <:+: lowerStr m) ∧
      ∃ k ∈ networkMessages, lowerStr k <:+: lowerStr m) ∧
    (classify m = ErrorClass.generic ↔
      (¬ ∃ k ∈ criticalMessages, lowerStr k <:+: lowerStr m) ∧
      ¬ ∃ k ∈ networkMessages, lowerStr k <:+: lowerStr m) := by
  have hc : isCriticalError m = true ↔
      ∃ k ∈ criticalMessages, lowerStr k <:+: lowerStr m := by
    simp [isCriticalError, includesCI, List.any_eq_true]
  have hn : isNetworkError m = true ↔
      ∃ k ∈ networkMessages, lowerStr k <:+: lowerStr m := by
    simp [isNetworkError, includesCI, List.any_eq_true]
  rcases hcrit : isCriticalError m with _ | _
  · rcases hnet : isNetworkError m with _ | _
    · simp [classify, hcrit, hnet, ← hc, ← hn]
    · simp [classify, hcrit, hnet, ← hc, ← hn]
  · simp [classify, hcrit, ← hc, ← hn]

/-- C8 amended witness: a message containing "unauthorized" classifies
as Critical. -/
theorem classify_keyword_cases_witness :
    classify "Unauthorized access" = ErrorClass.critical :=
  (classify_keyword_cases "Unauthorized access").1.mpr
    ⟨"Unauthorized", by decide, by decide⟩

/-- a character list without separators splits as one whole segment. -/
theorem splitSegsAux_no_sep (l : List Char) (cur : List Char)
    (h : ∀ c ∈ l, c ≠ '/') :
    splitSegsAux cur l = [String.mk (cur.reverse ++ l)] := by
  induction l generalizing cur with
  | nil => simp [splitSegsAux]
  | cons c cs ih =>
    have hc : c ≠ '/' := h c (List.mem_cons_self c cs)
    have hcs : ∀ x ∈ cs, x ≠ '/' := fun x hx => h x (List.mem_cons_of_mem c hx)
    simp only [splitSegsAux]
    rw [if_neg hc, ih (c :: cur) hcs]
    simp [List.reverse_cons, List.append_assoc]

/-- `path.join("./data/accounts", a)` for an id that is a plain path
segment: the base is normalized (leading `.` dropped) and the id is
appended verbatim. -/
theorem pathJoin_accounts (a : String) (h0 : a ≠ "") (h1 : a ≠ ".")
    (h2 : a ≠ "..") (hsep : ∀ c ∈ a.data, c ≠ '/') :
    pathJoin "./data/accounts" a = "data/accounts/" ++ a := by
  have hdata : a.data ≠ [] := fun hd => h0 (String.ext hd)
  have hsplit : splitSlash ("./data/accounts" ++ "/" ++ a)
      = "." :: "data" :: "accounts" :: splitSegsAux [] a.data := rfl
  rw [splitSegsAux_no_sep a.data [] hsep] at hsplit
  have hmk : String.mk (List.reverse [] ++ a.data) = a := rfl
  rw [hmk] at hsplit
  have hfold : List.foldl normStep [] ["." , "data", "accounts", a]
      = normStep ["data", "accounts"] a := rfl
  have hstep : normStep ["data", "accounts"] a = ["data", "accounts", a] := by
    unfold normStep
    rw [if_neg (by simp [h0, h1]), if_neg h2]
    rfl
  have hcore : String.intercalate "/" ["data", "accounts", a]
      = "data/accounts/" ++ a := rfl
  have hne : ("data/accounts/" ++ a) ≠ "" := by
    intro heq
    have hlen := congrArg String.length heq
    rw [String.length_append,
      show ("data/accounts/" : String).length = 14 from rfl,
      show ("" : String).length = 0 from rfl] at hlen
    omega
  have htrail : hasTrailingSep ("./data/accounts" ++ "/" ++ a).data
      = false := by
    unfold hasTrailingSep
    have hd : ("./data/accounts" ++ "/" ++ a).data
        = ("./data/accounts/" : String).data ++ a.data := rfl
    rw [hd, List.getLast?_append_of_ne_nil _ hdata,
      List.getLast?_eq_getLast_of_ne_nil hdata]
    have hlast : a.data.getLast hdata ≠ '/' :=
      hsep _ (List.getLast_mem hdata)
    simp [hlast]
  have hif : (if a = "" then ("./data/accounts" : String)
      else "./data/accounts" ++ "/" ++ a) = "./data/accounts" ++ "/" ++ a :=
    if_neg h0
  simp only [pathJoin, hif]
  rw [hsplit, hfold, hstep, hcore, if_neg hne, htrail]
  simp

/-- C9 counterexample: the distinct account ids "a/." and "a" derive the
identical (credential, profile) namespace pair, because `path.join`
normalizes the trailing `.` segment away — refuting the claimed
injectivity over all distinct ids. -/
theorem isolationPaths_collision :
    ("a/." ≠ "a") ∧ isolationPaths "a/." = isolationPaths "a" :=
  ⟨by decide, by decide⟩

/-- C9 amended: the isolation-path derivation is a pure function of the
account id — equal ids give equal (credential, profile) namespace
pairs — and over ids that are plain path segments (nonempty, not "." or
"..", containing no "/" separator) it is injective: distinct such ids
give distinct pairs.  Ids that `path.join` normalizes to the same path
(such as "a/." and "a") collide. -/
theorem isolationPaths_plain_injective (a b : String)
    (ha : a ≠ "" ∧ a ≠ "." ∧ a ≠ ".." ∧ ∀ c ∈ a.data, c ≠ '/')
    (hb : b ≠ "" ∧ b ≠ "." ∧ b ≠ ".." ∧ ∀ c ∈ b.data, c ≠ '/') :
    isolationPaths a = isolationPaths b ↔ a = b := by
  constructor
  · intro h
    have h1 : pathJoin "./data/accounts" a = pathJoin "./data/accounts" b :=
      congrArg Prod.fst h
    rw [pathJoin_accounts a ha.1 ha.2.1 ha.2.2.1 ha.2.2.2,
      pathJoin_accounts b hb.1 hb.2.1 hb.2.2.1 hb.2.2.2] at h1
    exact string_append_left_cancel h1
  · intro h
    rw [h]

/-- C9 amended witness: the plain distinct ids "a1" and "a2" resolve to
distinct namespace pairs. -/
theorem isolationPaths_plain_injective_witness :
    isolationPaths "a1" ≠ isolationPaths "a2" :=
  fun h =>
    absurd ((isolationPaths_plain_injective "a1" "a2"
      ⟨by decide, by decide, by decide, by decide⟩
      ⟨by decide, by decide, by decide, by decide⟩).mp h) (by decide)

/-- C3 amended: handling an error classified Critical immediately clears
the account's retry counter, emits the critical notification and the
account-disabled update, and schedules no retry for that event.  (The
handler keeps no record of disabled accounts, so a later non-critical
error event for the same account can schedule retries again — see the
counterexample.) -/
theorem critical_error_handling (accountId errMsg context : String)
    (ts : Nat) (s : EHState) (h : isCriticalError errMsg = true) :
    (handleAccountError accountId errMsg context ts s).retryAttempts
        = delRetries s.retryAttempts accountId ∧
    getRetries (handleAccountError accountId errMsg context ts s).retryAttempts
        accountId = 0 ∧
    (handleAccountError accountId errMsg context ts s).events
        = s.events ++
          [EHEvent.notify NotifyType.critical accountId,
           EHEvent.accountDisabled accountId errMsg] := by
  unfold handleAccountError
  simp only [h, if_pos]
  refine ⟨rfl, ?_, rfl⟩
  simpa [handleCriticalError] using
    getRetries_delRetries s.retryAttempts accountId

/-- C3 amended witness: a critical error on a fresh handler clears the
counter and emits exactly the critical notification and the disable
update, with no scheduled retry. -/
theorem critical_error_handling_witness :
    isCriticalError "Unauthorized" = true ∧
    (handleAccountError "a1" "Unauthorized" "ctx" 0 EHState.init).events
        = [EHEvent.notify NotifyType.critical "a1",
           EHEvent.accountDisabled "a1" "Unauthorized"] ∧
    getRetries (handleAccountError "a1" "Unauthorized" "ctx" 0
        EHState.init).retryAttempts "a1" = 0 :=
  ⟨by decide,
   by simpa using
     (critical_error_handling "a1" "Unauthorized" "ctx" 0 EHState.init
       (by decide)).2.2,
   (critical_error_handling "a1" "Unauthorized" "ctx" 0 EHState.init
       (by decide)).2.1⟩

/-- C3 counterexample: after a critical error for account "a1", a later
generic error event for "a1" does schedule a retry (the handler retains
no disabled-account record), contradicting the claim that no retry for
the account is ever scheduled after a critical error. -/
theorem critical_then_generic_schedules_retry :
    EHEvent.scheduleRetry "a1" 10000 ∈
      (handleAccountError "a1" "some glitch" "client_error" 1
        (handleAccountError "a1" "Unauthorized" "client_error" 0
          EHState.init)).events := by decide

/-- C4: per handled error event — NetworkTransient errors schedule a
retry with the fixed 5-second delay, Generic errors with delay
`10s * 2 ^ attemptCount` (10s, 20s, 40s), each only while fewer than 3
attempts were made and incrementing the counter; once 3 attempts are
exhausted the next non-critical event emits the terminal failure
notification and deletes the counter (no retry scheduled); and a
successful reconnection (`clearRetries`) resets the account's counter
to zero. -/
theorem retry_policy (accountId errMsg context : String) (ts : Nat)
    (s : EHState) :
    (isCriticalError errMsg = false → isNetworkError errMsg = true →
      getRetries s.retryAttempts accountId < maxRetries →
      (handleAccountError accountId errMsg context ts s).events
          = s.events ++
            [EHEvent.notify NotifyType.warning accountId,
             EHEvent.scheduleRetry accountId networkRetryDelay] ∧
      getRetries (handleAccountError accountId errMsg context ts s).retryAttempts
          accountId = getRetries s.retryAttempts accountId + 1) ∧
    (isCriticalError errMsg = false → isNetworkError errMsg = false →
      getRetries s.retryAttempts accountId < maxRetries →
      (handleAccountError accountId errMsg context ts s).events
          = s.events ++
            [EHEvent.notify NotifyType.warning accountId,
             EHEvent.scheduleRetry accountId
               (retryDelay * 2 ^ getRetries s.retryAttempts accountId)] ∧
      getRetries (handleAccountError accountId errMsg context ts s).retryAttempts
          accountId = getRetries s.retryAttempts accountId + 1) ∧
    (isCriticalError errMsg = false →
      ¬ getRetries s.retryAttempts accountId < maxRetries →
      (handleAccountError accountId errMsg context ts s).events
          = s.events ++ [EHEvent.notify NotifyType.error accountId] ∧
      getRetries (handleAccountError accountId errMsg context ts s).retryAttempts
          accountId = 0) ∧
    getRetries (clearRetries accountId s).retryAttempts accountId = 0 := by
  refine ⟨?_, ?_, ?_, ?_⟩
  · intro hc hn hr
    unfold handleAccountError
    simp only [hc, hn, if_neg, if_pos, Bool.false_eq_true, ite_false, ite_true]
    unfold handleNetworkError
    simp only [hr, if_pos]
    exact ⟨trivial, getRetries_setRetries _ _ _⟩
  · intro hc hn hr
    unfold handleAccountError
    simp only [hc, hn, Bool.false_eq_true, ite_false]
    unfold handleRetryableError
    simp only [hr, if_pos]
    exact ⟨trivial, getRetries_setRetries _ _ _⟩
  · intro hc hr
    unfold handleAccountError
    rcases hn : isNetworkError errMsg with _ | _
    · simp only [hc, hn, Bool.false_eq_true, ite_false]
      unfold handleRetryableError
      simp only [hr, if_neg, ite_false]
      exact ⟨trivial, getRetries_delRetries _ _⟩
    · simp only [hc, hn, Bool.false_eq_true, ite_false, ite_true]
      unfold handleNetworkError
      simp only [hr, if_neg, ite_false]
      exact ⟨trivial, getRetries_delRetries _ _⟩
  · exact getRetries_delRetries _ _

set_option maxRecDepth 100000 in
/-- C4 witness: four consecutive generic errors on a fresh account
schedule retries at 10s, 20s and 40s and then emit the terminal failure
notification with the counter deleted; three network errors schedule 5s
retries; clearing after two attempts resets the counter to zero. -/
theorem retry_policy_witness :
    isCriticalError "mystery fault" = false ∧
    isNetworkError "mystery fault" = false ∧
    getRetries EHState.init.retryAttempts "a1" < maxRetries ∧
    (handleAccountError "a1" "mystery fault" "c" 0 EHState.init).events
        = [EHEvent.notify NotifyType.warning "a1",
           EHEvent.scheduleRetry "a1" 10000] ∧
    ((List.range 4).foldl
        (fun st i => handleAccountError "a1" "mystery fault" "c" i st)
        EHState.init).events
      = [EHEvent.notify NotifyType.warning "a1",
         EHEvent.scheduleRetry "a1" 10000,
         EHEvent.notify NotifyType.warning "a1",
         EHEvent.scheduleRetry "a1" 20000,
         EHEvent.notify NotifyType.warning "a1",
         EHEvent.scheduleRetry "a1" 40000,
         EHEvent.notify NotifyType.error "a1"] ∧
    ((List.range 4).foldl
        (fun st i => handleAccountError "a1" "mystery fault" "c" i st)
        EHState.init).retryAttempts = [] ∧
    ((List.range 3).foldl
        (fun st i => handleAccountError "a1" "connection timeout" "c" i st)
        EHState.init).events
      = [EHEvent.notify NotifyType.warning "a1",
         EHEvent.scheduleRetry "a1" 5000,
         EHEvent.notify NotifyType.warning "a1",
         EHEvent.scheduleRetry "a1" 5000,
         EHEvent.notify NotifyType.warning "a1",
         EHEvent.scheduleRetry "a1" 5000] ∧
    getRetries (clearRetries "a1"
        ((List.range 2).foldl
          (fun st i => handleAccountError "a1" "mystery fault" "c" i st)
          EHState.init)).retryAttempts "a1" = 0 :=
  ⟨by decide, by decide, by decide,
   by simpa using
     ((retry_policy "a1" "mystery fault" "c" 0 EHState.init).2.1
       (by decide) (by decide) (by decide)).1,
   by decide, by decide, by decide,
   (retry_policy "a1" "mystery fault" "c" 0 _).2.2.2⟩

/-- C5: `sendMessage` on a registered account that is not simultaneously
active and authenticated fails with the not-ready error and leaves the
registry — in particular that account's message cache — completely
unchanged. -/
theorem sendMessage_not_ready (r : Registry)
    (accountId phoneNumber messageText : String)
    (wire : Except String String) (now : Nat) (account : Account)
    (hfind : lookupAccount r accountId = some account)
    (hnot : (account.isActive && account.isAuthenticated) = false) :
    sendMessage r accountId phoneNumber messageText wire now
      = (r, Except.error ("Account " ++ accountId ++ " is not ready")) := by
  unfold sendMessage
  rw [hfind]
  simp [hnot]

/-- C5 witness: a freshly created (inactive, unauthenticated) account
rejects a send with the not-ready error and the registry is unchanged. -/
theorem sendMessage_not_ready_witness :
    lookupAccount [("a1", newAccountInfo "a1" "Ann")] "a1"
        = some (newAccountInfo "a1" "Ann") ∧
    ((newAccountInfo "a1" "Ann").isActive &&
        (newAccountInfo "a1" "Ann").isAuthenticated) = false ∧
    sendMessage [("a1", newAccountInfo "a1" "Ann")] "a1" "+1 555" "hi"
        (Except.ok "m1") 7
      = ([("a1", newAccountInfo "a1" "Ann")],
         Except.error "Account a1 is not ready") :=
  ⟨by decide, by decide,
   by simpa using
     sendMessage_not_ready [("a1", newAccountInfo "a1" "Ann")] "a1" "+1 555"
       "hi" (Except.ok "m1") 7 (newAccountInfo "a1" "Ann") (by decide)
       (by decide)⟩

/-- C6: `createAccount` fails whenever the registry already holds
`maxAccounts` (10) entries or the id already exists, leaving the
registry unchanged on every failure; otherwise it registers the account
and returns the created record. -/
theorem createAccount_admission (r : Registry) (accountId displayName : String) :
    (r.length ≥ maxAccounts →
      createAccount r accountId displayName
        = (r, Except.error "Maximum 10 accounts allowed")) ∧
    (r.length < maxAccounts → (lookupAccount r accountId).isSome = true →
      createAccount r accountId displayName
        = (r, Except.error ("Account " ++ accountId ++ " already exists"))) ∧
    (r.length < maxAccounts → lookupAccount r accountId = none →
      createAccount r accountId displayName
        = (r ++ [(accountId, newAccountInfo accountId displayName)],
           Except.ok ⟨accountId, displayName, "created"⟩)) := by
  refine ⟨?_, ?_, ?_⟩
  · intro hlen
    unfold createAccount
    simp [hlen]
  · intro hlen hdup
    unfold createAccount
    simp [Nat.not_le_of_lt hlen, hdup]
  · intro hlen hfresh
    unfold createAccount
    simp [Nat.not_le_of_lt hlen, hfresh]

/-- C6 witness: with 10 registered accounts, creating an 11th fails with
the admission error and the registry still holds exactly 10 entries. -/
theorem createAccount_admission_witness :
    ((List.range 10).map
        (fun i => (toString i, newAccountInfo (toString i) "acct"))).length
      ≥ maxAccounts ∧
    createAccount
        ((List.range 10).map
          (fun i => (toString i, newAccountInfo (toString i) "acct")))
        "fresh" "F"
      = ((List.range 10).map
          (fun i => (toString i, newAccountInfo (toString i) "acct")),
         Except.error "Maximum 10 accounts allowed") ∧
    ((List.range 10).map
        (fun i => (toString i, newAccountInfo (toString i) "acct"))).length
      = 10 :=
  ⟨by decide,
   (createAccount_admission _ "fresh" "F").1 (by decide),
   by decide⟩

/-- C10: on a Ready (active) and Authenticated account, `sendMessage`
normalizes the destination by deleting every non-digit character and
appending "@c.us", sends to exactly that address, and appends exactly
one record carrying that address to the account's message cache under
that address as chat key; a destination with no digits is not rejected
but normalizes to "@c.us". -/
theorem sendMessage_normalizes (r : Registry)
    (accountId phoneNumber messageText wireId : String) (now : Nat)
    (account : Account)
    (hfind : lookupAccount r accountId = some account)
    (hact : account.isActive = true) (hauth : account.isAuthenticated = true) :
    sendMessage r accountId phoneNumber messageText (Except.ok wireId) now
      = (updateAccount r accountId
          (pushMessage account (formatPhone phoneNumber)
            ⟨wireId, formatPhone phoneNumber, messageText, now, accountId,
             "sent"⟩),
         Except.ok
          ⟨wireId, formatPhone phoneNumber, messageText, now, accountId,
           "sent"⟩) ∧
    cacheGet (pushMessage account (formatPhone phoneNumber)
        ⟨wireId, formatPhone phoneNumber, messageText, now, accountId,
         "sent"⟩).uiState.messageCache (formatPhone phoneNumber)
      = cacheGet account.uiState.messageCache (formatPhone phoneNumber) ++
        [⟨wireId, formatPhone phoneNumber, messageText, now, accountId,
          "sent"⟩] ∧
    ((∀ c ∈ phoneNumber.data, ¬ c.isDigit) →
      formatPhone phoneNumber = "@c.us") := by
  refine ⟨?_, ?_, ?_⟩
  · unfold sendMessage
    rw [hfind]
    simp [hact, hauth]
  · exact cacheGet_cachePush _ _ _
  · intro hnd
    have hfil : phoneNumber.data.filter Char.isDigit = [] := by
      rw [List.filter_eq_nil_iff]
      intro c hc
      simpa using hnd c hc
    unfold formatPhone cleanPhone
    rw [hfil]
    rfl

/-- C10 witness: a ready account sending to "+1 (55) 5a" sends to and
caches under "1555@c.us"; a digitless destination normalizes to
"@c.us". -/
theorem sendMessage_normalizes_witness :
    formatPhone "+1 (55) 5a" = "1555@c.us" ∧
    (sendMessage
        [("a1", { newAccountInfo "a1" "Ann" with
                  isActive := true, isAuthenticated := true })]
        "a1" "+1 (55) 5a" "hi" (Except.ok "m1") 7).2
      = Except.ok ⟨"m1", "1555@c.us", "hi", 7, "a1", "sent"⟩ ∧
    formatPhone "no digits!" = "@c.us" :=
  ⟨by decide,
   by
     have h := (sendMessage_normalizes
       [("a1", { newAccountInfo "a1" "Ann" with
                 isActive := true, isAuthenticated := true })]
       "a1" "+1 (55) 5a" "hi" "m1" 7
       ({ newAccountInfo "a1" "Ann" with
          isActive := true, isAuthenticated := true })
       (by decide) (by decide) (by decide)).1
     rw [h]
     rfl
   ,
   (sendMessage_normalizes
       [("a1", { newAccountInfo "a1" "Ann" with
                 isActive := true, isAuthenticated := true })]
       "a1" "no digits!" "t" "w" 0
       ({ newAccountInfo "a1" "Ann" with
          isActive := true, isAuthenticated := true })
       (by decide) (by decide) (by decide)).2.2 (by decide)⟩

end WhatsAppMulti
